import Mathlib

/-!
Shallow embedding of `src/pypots/modules/self_attention.py` (the Transformer
modules of PyPOTS: scaled dot-product attention, multi-head attention,
position-wise feed-forward, positional encoding, encoder/decoder layers and
stacks), together with theorems settling the frozen claims about it.

Modelling conventions:
* tensor entries are rationals (`ℚ`); a rank-3 tensor `[batch, steps, feat]`
  and a rank-4 tensor `[d1, d2, d3, d4]` carry their shape and a total
  indexing function;
* the numerical primitives the library delegates to the backend for
  (`exp` inside softmax, `** 0.5`, `np.sin`, `np.cos`, `np.power`) are
  abstract parameters collected in `NumPrims`;
* shape-checked torch operations (`nn.Linear.__call__`, `Tensor.view`,
  `torch.matmul`, `Tensor.masked_fill`, in-place `+=`, the broadcast add in
  `PositionalEncoding.forward`) return `Except PyErr _`, erroring exactly
  where torch raises; each has a total core (`linApp`, `reshape3to4t`, ...)
  used once the checks are known to pass;
* dropout randomness is passed per call as a keep-mask; `nn.Dropout` with
  `p = 0` is the identity;
* Python attribute names and keyword-argument names that matter to the
  claims (`self.layer_stack` vs `self.dec_layer_stack`, keyword `mask` vs
  parameter `attn_mask`) are modelled as symbols, with lookup failing exactly
  where Python raises `AttributeError` / `TypeError`.
-/

/-- Abstract numerical primitives supplied by the backend: `expQ` is the
exponential used by `F.softmax`, `sqrtQ x` models `x ** 0.5`, `sinQ`/`cosQ`
model `np.sin`/`np.cos`, and `powQ b e` models `np.power(b, e)`. -/
structure NumPrims where
  expQ : ℚ → ℚ
  sqrtQ : ℚ → ℚ
  sinQ : ℚ → ℚ
  cosQ : ℚ → ℚ
  powQ : ℚ → ℚ → ℚ

/-- A rank-3 tensor `[batch, steps, feat]` of rationals. -/
structure Tensor3 where
  b : Nat
  s : Nat
  f : Nat
  data : Nat → Nat → Nat → ℚ

/-- A rank-4 tensor `[d1, d2, d3, d4]` of rationals. -/
structure Tensor4 where
  d1 : Nat
  d2 : Nat
  d3 : Nat
  d4 : Nat
  data : Nat → Nat → Nat → Nat → ℚ

instance : Inhabited Tensor3 := ⟨⟨0, 0, 0, fun _ _ _ => 0⟩⟩

instance : Inhabited Tensor4 := ⟨⟨0, 0, 0, 0, fun _ _ _ _ => 0⟩⟩

/-- Runtime errors raised by torch / Python that the embedding tracks. -/
inductive PyErr where
  | shapeError
  | typeError
  | attributeError
deriving DecidableEq

/-- Keep-mask for dropout on a rank-3 tensor (true = the entry survives). -/
abbrev Keep3 := Nat → Nat → Nat → Bool

/-- Keep-mask for dropout on a rank-4 tensor (true = the entry survives). -/
abbrev Keep4 := Nat → Nat → Nat → Nat → Bool

/-- Boolean success test for `Except`. -/
def isOkE {ε α : Type} : Except ε α → Bool
  | .ok _ => true
  | .error _ => false

/-- `nn.Linear(in_features, out_features, bias)`: learned weight `weight o i`
(out-feature `o`, in-feature `i`) and optional bias. -/
structure Linear where
  inF : Nat
  outF : Nat
  weight : Nat → Nat → ℚ
  bias : Option (Nat → ℚ)

/-- Total core of applying a linear layer to the last axis of a rank-3
tensor: `y[i,t,o] = Σ_j weight[o,j] * x[i,t,j] (+ bias[o])`. -/
def linApp (l : Linear) (x : Tensor3) : Tensor3 :=
  ⟨x.b, x.s, l.outF, fun i t o =>
    (∑ j ∈ Finset.range l.inF, l.weight o j * x.data i t j) +
      (match l.bias with
       | some bf => bf o
       | none => 0)⟩

/-- Checked application of `nn.Linear`: torch raises unless the input's last
dimension equals `in_features`. -/
def Linear.apply (l : Linear) (x : Tensor3) : Except PyErr Tensor3 :=
  if x.f = l.inF then .ok (linApp l x) else .error .shapeError

/-- `nn.Dropout(p)`. -/
structure Dropout where
  p : ℚ

/-- Dropout on a rank-3 tensor, given the realised keep-mask of the call:
identity when `p = 0`, otherwise inverted dropout (survivors scaled by
`1/(1-p)`, dropped entries zeroed). -/
def Dropout.apply3 (d : Dropout) (keep : Keep3) (x : Tensor3) : Tensor3 :=
  if d.p = 0 then x
  else ⟨x.b, x.s, x.f, fun i t j =>
    if keep i t j then x.data i t j / (1 - d.p) else 0⟩

/-- Dropout on a rank-4 tensor, given the realised keep-mask of the call. -/
def Dropout.apply4 (d : Dropout) (keep : Keep4) (x : Tensor4) : Tensor4 :=
  if d.p = 0 then x
  else ⟨x.d1, x.d2, x.d3, x.d4, fun i h r c =>
    if keep i h r c then x.data i h r c / (1 - d.p) else 0⟩

/-- `nn.LayerNorm(dim, eps)` with learned scale `gamma` and bias `beta`. -/
structure LayerNorm where
  dim : Nat
  eps : ℚ
  gamma : Nat → ℚ
  beta : Nat → ℚ

/-- Layer normalisation over the last axis of a rank-3 tensor: per
`[batch, steps]` position, subtract the mean, divide by
`sqrt(variance + eps)` (biased variance, as torch uses), then apply the
learned affine transform. -/
def LayerNorm.apply (P : NumPrims) (ln : LayerNorm) (x : Tensor3) : Tensor3 :=
  ⟨x.b, x.s, x.f, fun i t j =>
    let n : ℚ := (x.f : ℚ)
    let mean : ℚ := (∑ c ∈ Finset.range x.f, x.data i t c) / n
    let varB : ℚ := (∑ c ∈ Finset.range x.f, (x.data i t c - mean) ^ 2) / n
    ln.gamma j * ((x.data i t j - mean) / P.sqrtQ (varB + ln.eps)) + ln.beta j⟩

/-- Elementwise ReLU on a rank-3 tensor. -/
def relu3 (x : Tensor3) : Tensor3 :=
  ⟨x.b, x.s, x.f, fun i t j => max (x.data i t j) 0⟩

/-- Total core of elementwise addition of two rank-3 tensors of equal shape. -/
def add3t (x y : Tensor3) : Tensor3 :=
  ⟨x.b, x.s, x.f, fun i t j => x.data i t j + y.data i t j⟩

/-- Checked in-place addition `x += y` (shapes must agree exactly, which is
how it is always reached in this file). -/
def add3 (x y : Tensor3) : Except PyErr Tensor3 :=
  if x.b = y.b ∧ x.s = y.s ∧ x.f = y.f then .ok (add3t x y) else .error .shapeError

/-- Scalar division of a rank-4 tensor (`q / temperature`). -/
def div4 (x : Tensor4) (c : ℚ) : Tensor4 :=
  ⟨x.d1, x.d2, x.d3, x.d4, fun i h r k => x.data i h r k / c⟩

/-- `Tensor.transpose(2, 3)` on a rank-4 tensor. -/
def transpose23 (x : Tensor4) : Tensor4 :=
  ⟨x.d1, x.d2, x.d4, x.d3, fun i h r k => x.data i h k r⟩

/-- `Tensor.transpose(1, 2)` on a rank-4 tensor. -/
def transpose12 (x : Tensor4) : Tensor4 :=
  ⟨x.d1, x.d3, x.d2, x.d4, fun i h r k => x.data i r h k⟩

/-- `Tensor.unsqueeze(1)` on a rank-3 tensor: insert a broadcast axis of
size 1 after the batch axis. -/
def unsqueeze1 (x : Tensor3) : Tensor4 :=
  ⟨x.b, 1, x.s, x.f, fun i _ r k => x.data i r k⟩

/-- Total core of batched matrix multiplication on the last two axes. -/
def matmul4t (x y : Tensor4) : Tensor4 :=
  ⟨x.d1, x.d2, x.d3, y.d4, fun i h r c =>
    ∑ j ∈ Finset.range x.d4, x.data i h r j * y.data i h j c⟩

/-- Checked `torch.matmul` on rank-4 tensors: batch dimensions must agree and
the inner matrix dimensions must match. -/
def matmul4 (x y : Tensor4) : Except PyErr Tensor4 :=
  if x.d1 = y.d1 ∧ x.d2 = y.d2 ∧ x.d4 = y.d3 then .ok (matmul4t x y) else .error .shapeError

/-- Broadcast index helper: a size-1 dimension always reads index 0. -/
def bIdx (dim i : Nat) : Nat :=
  if dim = 1 then 0 else i

/-- Total core of `Tensor.masked_fill(mask == 1, c)` with the mask broadcast
against the tensor: entries whose (broadcast) mask value is 1 are replaced by
`c`. -/
def maskedFillT (x : Tensor4) (m : Tensor4) (c : ℚ) : Tensor4 :=
  ⟨x.d1, x.d2, x.d3, x.d4, fun i h r k =>
    if m.data (bIdx m.d1 i) (bIdx m.d2 h) (bIdx m.d3 r) (bIdx m.d4 k) = 1 then c
    else x.data i h r k⟩

/-- Checked `masked_fill`: the mask must be broadcastable to the tensor's
shape (each mask dimension equal to the tensor's or equal to 1). -/
def maskedFill (x : Tensor4) (m : Tensor4) (c : ℚ) : Except PyErr Tensor4 :=
  if (m.d1 = x.d1 ∨ m.d1 = 1) ∧ (m.d2 = x.d2 ∨ m.d2 = 1) ∧
     (m.d3 = x.d3 ∨ m.d3 = 1) ∧ (m.d4 = x.d4 ∨ m.d4 = 1) then
    .ok (maskedFillT x m c)
  else .error .shapeError

/-- Total core of the optional masking step of the attention map: identity
when no mask is supplied. -/
def applyAttnMaskT (x : Tensor4) (mask : Option Tensor4) (c : ℚ) : Tensor4 :=
  match mask with
  | none => x
  | some m => maskedFillT x m c

/-- Checked optional masking step (`if attn_mask is not None: ...`). -/
def applyAttnMask (x : Tensor4) (mask : Option Tensor4) (c : ℚ) : Except PyErr Tensor4 :=
  match mask with
  | none => .ok x
  | some m => maskedFill x m c

/-- `F.softmax(x, dim=-1)`: exponentiate with the backend exponential and
normalise along the last axis. -/
def softmax4 (P : NumPrims) (x : Tensor4) : Tensor4 :=
  ⟨x.d1, x.d2, x.d3, x.d4, fun i h r c =>
    P.expQ (x.data i h r c) / ∑ j ∈ Finset.range x.d4, P.expQ (x.data i h r j)⟩

/-- Total core of `Tensor.view(a, b, c, d)` on a contiguous rank-3 tensor:
reinterpret the row-major element stream with the new shape. -/
def reshape3to4t (x : Tensor3) (a b c d : Nat) : Tensor4 :=
  ⟨a, b, c, d, fun i j h l =>
    let n := ((i * b + j) * c + h) * d + l
    x.data (n / (x.s * x.f)) (n / x.f % x.s) (n % x.f)⟩

/-- Checked `Tensor.view(a, b, c, d)`: torch raises unless the element counts
agree. -/
def view3to4 (x : Tensor3) (a b c d : Nat) : Except PyErr Tensor4 :=
  if x.b * x.s * x.f = a * b * c * d then .ok (reshape3to4t x a b c d) else .error .shapeError

/-- `v.transpose(1, 2).contiguous().view(batch_size, n_steps, -1)`: merge the
per-head outputs `[batch, heads, steps, d_v]` into `[batch, steps, heads*d_v]`
head-major (a contiguous copy is materialised before the view, so the merge
reads the transposed layout). -/
def mergeHeads (x : Tensor4) : Tensor3 :=
  ⟨x.d1, x.d2, x.d3 * x.d4, fun i t j => x.data i t (j / x.d4) (j % x.d4)⟩

/-- `ScaledDotProductAttention(temperature, attn_dropout)`. -/
structure ScaledDotProductAttention where
  temperature : ℚ
  dropout : Dropout

/-- `ScaledDotProductAttention.forward(q, k, v, attn_mask)`:
`attn = matmul(q / temperature, k.transpose(2, 3))`; when a mask is supplied,
`attn = attn.masked_fill(attn_mask == 1, -1e9)`; then
`attn = dropout(softmax(attn, dim=-1))` and `output = matmul(attn, v)`;
returns `(output, attn)`. -/
def ScaledDotProductAttention.forward (P : NumPrims) (s : ScaledDotProductAttention)
    (q k v : Tensor4) (attn_mask : Option Tensor4) (keep : Keep4) :
    Except PyErr (Tensor4 × Tensor4) := do
  let attn0 ← matmul4 (div4 q s.temperature) (transpose23 k)
  let attn1 ← applyAttnMask attn0 attn_mask (-(10 ^ 9))
  let attn := s.dropout.apply4 keep (softmax4 P attn1)
  let output ← matmul4 attn v
  return (output, attn)

/-- Per-layer learned weights of one `MultiHeadAttention` module (the linear
projections carry no bias in the source; the layer norm has scale and bias). -/
structure MHAWeights where
  wq : Nat → Nat → ℚ
  wk : Nat → Nat → ℚ
  wv : Nat → Nat → ℚ
  wfc : Nat → Nat → ℚ
  lnG : Nat → ℚ
  lnB : Nat → ℚ

/-- `MultiHeadAttention` module state after `__init__`. -/
structure MultiHeadAttention where
  n_head : Nat
  d_k : Nat
  d_v : Nat
  w_qs : Linear
  w_ks : Linear
  w_vs : Linear
  attention : ScaledDotProductAttention
  fc : Linear
  dropout : Dropout
  layer_norm : LayerNorm

/-- `MultiHeadAttention.__init__(n_heads, d_model, d_k, d_v, dropout,
attn_dropout)`: bias-free projections `d_model → n_heads*d_k` (or `*d_v`),
a `ScaledDotProductAttention(d_k ** 0.5, attn_dropout)`, the bias-free output
projection `n_heads*d_v → d_model`, `nn.Dropout(dropout)` and
`nn.LayerNorm(d_model, eps=1e-6)`. -/
def MultiHeadAttention.init (P : NumPrims) (n_heads d_model d_k d_v : Nat)
    (dropout attn_dropout : ℚ) (W : MHAWeights) : MultiHeadAttention :=
  { n_head := n_heads
    d_k := d_k
    d_v := d_v
    w_qs := ⟨d_model, n_heads * d_k, W.wq, none⟩
    w_ks := ⟨d_model, n_heads * d_k, W.wk, none⟩
    w_vs := ⟨d_model, n_heads * d_v, W.wv, none⟩
    attention := ⟨P.sqrtQ (d_k : ℚ), ⟨attn_dropout⟩⟩
    fc := ⟨n_heads * d_v, d_model, W.wfc, none⟩
    dropout := ⟨dropout⟩
    layer_norm := ⟨d_model, 1 / 1000000, W.lnG, W.lnB⟩ }

/-- `MultiHeadAttention.forward(q, k, v, attn_mask)`: capture
`batch_size, n_steps = q.size(0), q.size(1)` and `residual = q`; project and
reshape each of q, k, v with `view(batch_size, n_steps, n_head, d_k or d_v)`
(the batch and step counts are taken from `q` for all three); transpose to put
the head axis second; unsqueeze the mask on the head axis; delegate to
`self.attention`; merge the heads, apply the output projection `fc`, dropout,
the in-place residual addition `v += residual`, and the layer norm. -/
def MultiHeadAttention.forward (P : NumPrims) (m : MultiHeadAttention)
    (q k v : Tensor3) (attn_mask : Option Tensor3) (keepA : Keep4) (keep3 : Keep3) :
    Except PyErr (Tensor3 × Tensor4) := do
  let batch_size := q.b
  let n_steps := q.s
  let residual := q
  let qp ← m.w_qs.apply q
  let q4 ← view3to4 qp batch_size n_steps m.n_head m.d_k
  let kp ← m.w_ks.apply k
  let k4 ← view3to4 kp batch_size n_steps m.n_head m.d_k
  let vp ← m.w_vs.apply v
  let v4 ← view3to4 vp batch_size n_steps m.n_head m.d_v
  let qt := transpose12 q4
  let kt := transpose12 k4
  let vt := transpose12 v4
  let mask4 := attn_mask.map unsqueeze1
  let (vo, attn_weights) ← m.attention.forward P qt kt vt mask4 keepA
  let merged := mergeHeads (transpose12 vo)
  let vfc ← m.fc.apply merged
  let vdrop := m.dropout.apply3 keep3 vfc
  let vres ← add3 vdrop residual
  let vout := m.layer_norm.apply P vres
  return (vout, attn_weights)

/-- Keyword-argument names used at `MultiHeadAttention` call sites in the
source (`EncoderLayer` passes `attn_mask=...`; `DecoderLayer` passes
`mask=...`). -/
inductive KwName where
  | attn_mask
  | mask
deriving DecidableEq

/-- Calling a `MultiHeadAttention` module with the mask given as a keyword
argument: `MultiHeadAttention.forward` only has a parameter named
`attn_mask`, so any other keyword raises `TypeError` before the body runs. -/
def MultiHeadAttention.callKw (P : NumPrims) (m : MultiHeadAttention)
    (q k v : Tensor3) (kw : KwName) (attn_mask : Option Tensor3)
    (keepA : Keep4) (keep3 : Keep3) : Except PyErr (Tensor3 × Tensor4) :=
  if kw = KwName.attn_mask then m.forward P q k v attn_mask keepA keep3
  else .error .typeError

/-- Per-layer learned weights of one `PositionWiseFeedForward` module. -/
structure FFNWeights where
  w1 : Nat → Nat → ℚ
  b1 : Nat → ℚ
  w2 : Nat → Nat → ℚ
  b2 : Nat → ℚ
  lnG : Nat → ℚ
  lnB : Nat → ℚ

/-- `PositionWiseFeedForward` module state after `__init__`. -/
structure PositionWiseFeedForward where
  linear_1 : Linear
  linear_2 : Linear
  layer_norm : LayerNorm
  dropout : Dropout

/-- `PositionWiseFeedForward.__init__(d_in, d_hid, dropout)`: two biased
linear layers `d_in → d_hid → d_in`, `nn.LayerNorm(d_in, eps=1e-6)` and
`nn.Dropout(dropout)`. -/
def PositionWiseFeedForward.init (d_in d_hid : Nat) (dropout : ℚ)
    (W : FFNWeights) : PositionWiseFeedForward :=
  { linear_1 := ⟨d_in, d_hid, W.w1, some W.b1⟩
    linear_2 := ⟨d_hid, d_in, W.w2, some W.b2⟩
    layer_norm := ⟨d_in, 1 / 1000000, W.lnG, W.lnB⟩
    dropout := ⟨dropout⟩ }

/-- `PositionWiseFeedForward.forward(x)`: save `residual = x`, apply
`linear_1`, ReLU, `linear_2`, dropout, the in-place residual addition
`x += residual`, and the layer norm. -/
def PositionWiseFeedForward.forward (P : NumPrims) (f : PositionWiseFeedForward)
    (x : Tensor3) (keep : Keep3) : Except PyErr Tensor3 := do
  let residual := x
  let h1 ← f.linear_1.apply x
  let h2 := relu3 h1
  let h3 ← f.linear_2.apply h2
  let h4 := f.dropout.apply3 keep h3
  let h5 ← add3 h4 residual
  return f.layer_norm.apply P h5

/-- `PositionalEncoding` module state after `__init__`: the precomputed
sinusoid table registered as a (non-parameter) buffer. -/
structure PositionalEncoding where
  d_hid : Nat
  n_position : Nat
  pos_table : Tensor3

/-- `get_position_angle_vec(position)[hid_j] =
position / np.power(10000, 2 * (hid_j // 2) / d_hid)` (integer floor
division inside, true division by `d_hid` outside). -/
def get_position_angle_vec (P : NumPrims) (d_hid : Nat) (position : Nat) : Nat → ℚ :=
  fun hid_j => (position : ℚ) / P.powQ 10000 (((2 * (hid_j / 2) : Nat) : ℚ) / (d_hid : ℚ))

/-- `_get_sinusoid_encoding_table(n_position, d_hid)`: the raw angle table
with `np.sin` applied to the even feature columns and `np.cos` to the odd
ones, then `unsqueeze(0)` giving shape `[1, n_position, d_hid]`. -/
def getSinusoidEncodingTable (P : NumPrims) (n_position d_hid : Nat) : Tensor3 :=
  ⟨1, n_position, d_hid, fun _ pos hid_j =>
    if hid_j % 2 = 0 then P.sinQ (get_position_angle_vec P d_hid pos hid_j)
    else P.cosQ (get_position_angle_vec P d_hid pos hid_j)⟩

/-- `PositionalEncoding.__init__(d_hid, n_position)`: build the sinusoid
table once and register it as a buffer (not a parameter). -/
def PositionalEncoding.init (P : NumPrims) (d_hid n_position : Nat) : PositionalEncoding :=
  ⟨d_hid, n_position, getSinusoidEncodingTable P n_position d_hid⟩

/-- `PositionalEncoding.forward(x) = x + pos_table[:, : x.size(1)]`
(`.clone().detach()` copies the slice without gradient, leaving the values
unchanged); the elementwise add broadcasts the table's batch axis of size 1
and raises unless the sliced table matches `x` on the step and feature axes,
i.e. unless `x.s ≤ n_position` and `x.f = d_hid`. -/
def PositionalEncoding.forward (pe : PositionalEncoding) (x : Tensor3) :
    Except PyErr Tensor3 :=
  if x.s ≤ pe.n_position ∧ x.f = pe.d_hid then
    .ok ⟨x.b, x.s, x.f, fun i t j => x.data i t j + pe.pos_table.data 0 t j⟩
  else .error .shapeError

/-- Realised dropout randomness for one encoder layer: the keep-mask of the
attention-weight dropout, of the multi-head output dropout, and of the
feed-forward dropout. -/
structure LayerRand where
  attnKeep : Keep4
  mhaKeep : Keep3
  ffnKeep : Keep3

/-- `EncoderLayer` module state after `__init__`. -/
structure EncoderLayer where
  slf_attn : MultiHeadAttention
  pos_ffn : PositionWiseFeedForward

/-- `EncoderLayer.__init__(d_model, d_inner, n_head, d_k, d_v, dropout,
attn_dropout)`. -/
def EncoderLayer.init (P : NumPrims) (d_model d_inner n_head d_k d_v : Nat)
    (dropout attn_dropout : ℚ) (Wa : MHAWeights) (Wf : FFNWeights) : EncoderLayer :=
  { slf_attn := MultiHeadAttention.init P n_head d_model d_k d_v dropout attn_dropout Wa
    pos_ffn := PositionWiseFeedForward.init d_model d_inner dropout Wf }

/-- `EncoderLayer.forward(enc_input, src_mask)`: self-attention with q = k =
v = `enc_input` and keyword `attn_mask=src_mask` (a keyword
`MultiHeadAttention.forward` does accept), then the feed-forward block;
returns the transformed sequence and the self-attention weights. -/
def EncoderLayer.forward (P : NumPrims) (l : EncoderLayer) (enc_input : Tensor3)
    (src_mask : Option Tensor3) (r : LayerRand) : Except PyErr (Tensor3 × Tensor4) := do
  let (enc_output, attn_weights) ←
    MultiHeadAttention.callKw P l.slf_attn enc_input enc_input enc_input
      KwName.attn_mask src_mask r.attnKeep r.mhaKeep
  let out ← l.pos_ffn.forward P enc_output r.ffnKeep
  return (out, attn_weights)

/-- `DecoderLayer` module state after `__init__`. -/
structure DecoderLayer where
  slf_attn : MultiHeadAttention
  enc_attn : MultiHeadAttention
  pos_ffn : PositionWiseFeedForward

/-- `DecoderLayer.__init__(d_model, d_inner, n_head, d_k, d_v, dropout,
attn_dropout)`. -/
def DecoderLayer.init (P : NumPrims) (d_model d_inner n_head d_k d_v : Nat)
    (dropout attn_dropout : ℚ) (Ws We : MHAWeights) (Wf : FFNWeights) : DecoderLayer :=
  { slf_attn := MultiHeadAttention.init P n_head d_model d_k d_v dropout attn_dropout Ws
    enc_attn := MultiHeadAttention.init P n_head d_model d_k d_v dropout attn_dropout We
    pos_ffn := PositionWiseFeedForward.init d_model d_inner dropout Wf }

/-- Realised dropout randomness for one decoder layer (self-attention block,
cross-attention block, feed-forward block). -/
structure DecLayerRand where
  slfAttnKeep : Keep4
  slfOutKeep : Keep3
  encAttnKeep : Keep4
  encOutKeep : Keep3
  ffnKeep : Keep3

/-- A store of allocated tensors: cell `r` holds the current contents of the
tensor object with reference `r`.  Used to state frame properties (which
calls write to which existing tensors). -/
abbrev Store := List Tensor3

/-- Store-level call of a `MultiHeadAttention` module through a keyword
argument.  On a successful call the result is a freshly allocated tensor and
no existing cell is written: the single in-place operation in the source,
`v += residual`, targets the tensor freshly created by
`self.dropout(self.fc(...))` inside the call, never an argument
(`masked_fill` is out-of-place).  A wrong keyword raises `TypeError` before
anything runs. -/
def MultiHeadAttention.callKwStore (P : NumPrims) (m : MultiHeadAttention)
    (σ : Store) (qr kr vr : Nat) (kw : KwName) (attn_mask : Option Tensor3)
    (keepA : Keep4) (keep3 : Keep3) : Store × Except PyErr (Nat × Tensor4) :=
  if kw = KwName.attn_mask then
    match m.forward P (σ.getD qr default) (σ.getD kr default) (σ.getD vr default)
        attn_mask keepA keep3 with
    | .error e => (σ, .error e)
    | .ok (vout, attn_weights) => (σ ++ [vout], .ok (σ.length, attn_weights))
  else (σ, .error .typeError)

/-- Store-level call of a `PositionWiseFeedForward` module: the result is
freshly allocated and no existing cell is written (the in-place
`x += residual` targets the fresh dropout output). -/
def PositionWiseFeedForward.forwardStore (P : NumPrims) (f : PositionWiseFeedForward)
    (σ : Store) (xr : Nat) (keep : Keep3) : Store × Except PyErr Nat :=
  match f.forward P (σ.getD xr default) keep with
  | .error e => (σ, .error e)
  | .ok y => (σ ++ [y], .ok σ.length)

/-- `DecoderLayer.forward(dec_input, enc_output, slf_attn_mask,
dec_enc_attn_mask)` at store level.  The source's first statement is
`self.slf_attn(dec_input, dec_input, dec_input, mask=slf_attn_mask)` and its
second is `self.enc_attn(dec_output, enc_output, enc_output,
mask=dec_enc_attn_mask)`: both pass the mask under the keyword `mask`, which
`MultiHeadAttention.forward` does not accept (its parameter is `attn_mask`),
so the first call raises `TypeError`. -/
def DecoderLayer.forwardStore (P : NumPrims) (l : DecoderLayer) (σ : Store)
    (decRef encRef : Nat) (slf_attn_mask dec_enc_attn_mask : Option Tensor3)
    (r : DecLayerRand) : Store × Except PyErr (Nat × Tensor4 × Tensor4) :=
  match MultiHeadAttention.callKwStore P l.slf_attn σ decRef decRef decRef
      KwName.mask slf_attn_mask r.slfAttnKeep r.slfOutKeep with
  | (σ1, .error e) => (σ1, .error e)
  | (σ1, .ok (dref1, dec_slf_attn)) =>
    match MultiHeadAttention.callKwStore P l.enc_attn σ1 dref1 encRef encRef
        KwName.mask dec_enc_attn_mask r.encAttnKeep r.encOutKeep with
    | (σ2, .error e) => (σ2, .error e)
    | (σ2, .ok (dref2, dec_enc_attn)) =>
      match PositionWiseFeedForward.forwardStore P l.pos_ffn σ2 dref2 r.ffnKeep with
      | (σ3, .error e) => (σ3, .error e)
      | (σ3, .ok dref3) => (σ3, .ok (dref3, dec_slf_attn, dec_enc_attn))

/-- Attribute names under which the layer stacks are looked up: the
constructors bind `self.enc_layer_stack` / `self.dec_layer_stack`;
`Decoder.forward` reads `self.layer_stack`. -/
inductive AttrName where
  | enc_layer_stack
  | dec_layer_stack
  | layer_stack
deriving DecidableEq

/-- Learned weights of an `Encoder`: the embedding projection (with bias) and
the per-layer weight bundles. -/
structure EncoderWeights where
  emb : Nat → Nat → ℚ
  embB : Nat → ℚ
  layers : Nat → MHAWeights × FFNWeights

/-- `Encoder` module state after `__init__`. -/
structure Encoder where
  embedding : Linear
  dropout : Dropout
  position_enc : PositionalEncoding
  enc_layer_stack : List EncoderLayer

/-- Python attribute lookup of a layer stack on an `Encoder` object: the
constructor only ever binds the name `enc_layer_stack`. -/
def Encoder.stackAttr (enc : Encoder) (a : AttrName) : Option (List EncoderLayer) :=
  if a = AttrName.enc_layer_stack then some enc.enc_layer_stack else none

/-- `Encoder.__init__(n_layers, n_steps, n_features, d_model, d_inner,
n_heads, d_k, d_v, dropout, attn_dropout)`: embedding `n_features → d_model`,
`nn.Dropout(dropout)`, `PositionalEncoding(d_model, n_position=n_steps)`, and
a `ModuleList` of `n_layers` freshly constructed `EncoderLayer`s bound to the
attribute `enc_layer_stack`. -/
def Encoder.init (P : NumPrims) (n_layers n_steps n_features d_model d_inner
    n_heads d_k d_v : Nat) (dropout attn_dropout : ℚ) (W : EncoderWeights) : Encoder :=
  { embedding := ⟨n_features, d_model, W.emb, some W.embB⟩
    dropout := ⟨dropout⟩
    position_enc := PositionalEncoding.init P d_model n_steps
    enc_layer_stack := (List.range n_layers).map fun i =>
      EncoderLayer.init P d_model d_inner n_heads d_k d_v dropout attn_dropout
        (W.layers i).1 (W.layers i).2 }

/-- The loop `for layer in ...: enc_output, attn_weights = layer(enc_output,
src_mask); attn_weights_collector.append(attn_weights)`: threads the hidden
state through the layers in list order and collects every layer's attention
weights in that order. -/
def encoderLayerLoop (P : NumPrims) :
    List EncoderLayer → Tensor3 → Option Tensor3 → (Nat → LayerRand) → Nat →
    Except PyErr (Tensor3 × List Tensor4)
  | [], x, _, _, _ => .ok (x, [])
  | layer :: rest, x, src_mask, rs, i => do
    let (y, w) ← layer.forward P x src_mask (rs i)
    let (out, ws) ← encoderLayerLoop P rest y src_mask rs (i + 1)
    return (out, w :: ws)

/-- `Encoder.forward(x, src_mask, return_attn_weights)`: embed, add the
positional encoding, apply dropout, run the layer stack (read from the
attribute `enc_layer_stack`, which exists) collecting attention weights, then
return `(enc_output, attn_weights_collector)` when the flag is true and
`enc_output` alone otherwise. -/
def Encoder.forward (P : NumPrims) (enc : Encoder) (x : Tensor3)
    (src_mask : Option Tensor3) (return_attn_weights : Bool)
    (keep0 : Keep3) (rs : Nat → LayerRand) :
    Except PyErr (Tensor3 ⊕ (Tensor3 × List Tensor4)) := do
  let x1 ← enc.embedding.apply x
  let x2 ← enc.position_enc.forward x1
  let enc_output := enc.dropout.apply3 keep0 x2
  match enc.stackAttr AttrName.enc_layer_stack with
  | none => .error .attributeError
  | some stack => do
    let (out, ws) ← encoderLayerLoop P stack enc_output src_mask rs 0
    if return_attn_weights then return .inr (out, ws)
    else return .inl out

/-- Learned weights of a `Decoder`. -/
structure DecoderWeights where
  emb : Nat → Nat → ℚ
  embB : Nat → ℚ
  layers : Nat → MHAWeights × MHAWeights × FFNWeights

/-- `Decoder` module state after `__init__`. -/
structure Decoder where
  embedding : Linear
  dropout : Dropout
  position_enc : PositionalEncoding
  dec_layer_stack : List DecoderLayer

/-- Python attribute lookup of a layer stack on a `Decoder` object: the
constructor only ever binds the name `dec_layer_stack`, so looking up
`layer_stack` (as `Decoder.forward` does) yields nothing and Python raises
`AttributeError`. -/
def Decoder.stackAttr (dec : Decoder) (a : AttrName) : Option (List DecoderLayer) :=
  if a = AttrName.dec_layer_stack then some dec.dec_layer_stack else none

/-- `Decoder.__init__(n_layers, n_steps, n_features, d_model, d_inner,
n_heads, d_k, d_v, dropout, attn_dropout)`: embedding `n_features → d_model`,
`nn.Dropout(dropout)`, `PositionalEncoding(d_model, n_position=n_steps)`, and
a `ModuleList` of `n_layers` freshly constructed `DecoderLayer`s bound to the
attribute `dec_layer_stack`. -/
def Decoder.init (P : NumPrims) (n_layers n_steps n_features d_model d_inner
    n_heads d_k d_v : Nat) (dropout attn_dropout : ℚ) (W : DecoderWeights) : Decoder :=
  { embedding := ⟨n_features, d_model, W.emb, some W.embB⟩
    dropout := ⟨dropout⟩
    position_enc := PositionalEncoding.init P d_model n_steps
    dec_layer_stack := (List.range n_layers).map fun i =>
      DecoderLayer.init P d_model d_inner n_heads d_k d_v dropout attn_dropout
        (W.layers i).1 (W.layers i).2.1 (W.layers i).2.2 }

/-- The loop `for layer in ...: dec_output, dec_slf_attn, dec_enc_attn =
layer(dec_output, enc_output, slf_attn_mask=trg_mask,
dec_enc_attn_mask=src_mask)` at store level, collecting both attention-weight
lists in order. -/
def decoderLayerLoop (P : NumPrims) :
    List DecoderLayer → Store → Nat → Nat → Option Tensor3 → Option Tensor3 →
    (Nat → DecLayerRand) → Nat →
    Store × Except PyErr (Nat × List Tensor4 × List Tensor4)
  | [], σ, dref, _, _, _, _, _ => (σ, .ok (dref, [], []))
  | layer :: rest, σ, dref, eref, trg_mask, src_mask, rs, i =>
    match layer.forwardStore P σ dref eref trg_mask src_mask (rs i) with
    | (σ1, .error e) => (σ1, .error e)
    | (σ1, .ok (dref1, w1, w2)) =>
      match decoderLayerLoop P rest σ1 dref1 eref trg_mask src_mask rs (i + 1) with
      | (σ2, .error e) => (σ2, .error e)
      | (σ2, .ok (drefF, ws1, ws2)) => (σ2, .ok (drefF, w1 :: ws1, w2 :: ws2))

/-- `Decoder.forward(trg_seq, enc_output, trg_mask, src_mask,
return_attn_weights)` at store level: embed `trg_seq`, add the positional
encoding, apply dropout (each producing a fresh tensor), then iterate
`self.layer_stack` — an attribute the constructor never bound (it bound
`dec_layer_stack`), so the lookup raises `AttributeError` before any layer
runs.  The first component of the result is the store after the call. -/
def Decoder.forwardStore (P : NumPrims) (dec : Decoder) (σ : Store)
    (trgRef encRef : Nat) (trg_mask src_mask : Option Tensor3)
    (return_attn_weights : Bool) (keep0 : Keep3) (rs : Nat → DecLayerRand) :
    Store × Except PyErr ((Tensor3 × List Tensor4 × List Tensor4) ⊕ Tensor3) :=
  match dec.embedding.apply (σ.getD trgRef default) with
  | .error e => (σ, .error e)
  | .ok emb =>
    match dec.position_enc.forward emb with
    | .error e => (σ ++ [emb], .error e)
    | .ok pos =>
      let dec_output := dec.dropout.apply3 keep0 pos
      let σ3 := σ ++ [emb, pos, dec_output]
      match dec.stackAttr AttrName.layer_stack with
      | none => (σ3, .error .attributeError)
      | some stack =>
        match decoderLayerLoop P stack σ3 (σ.length + 2) encRef trg_mask src_mask rs 0 with
        | (σ4, .error e) => (σ4, .error e)
        | (σ4, .ok (drefF, ws1, ws2)) =>
          if return_attn_weights then
            (σ4, .ok (.inl (σ4.getD drefF default, ws1, ws2)))
          else (σ4, .ok (.inr (σ4.getD drefF default)))

/-- Concrete backend primitives used by the evaluation witnesses: a constant
positive exponential, identity square root, zero sine/cosine, constant power. -/
def P1 : NumPrims := ⟨fun _ => 1, fun x => x, fun _ => 0, fun _ => 0, fun _ _ => 1⟩

/-- All-ones weight matrix. -/
def wOnes : Nat → Nat → ℚ := fun _ _ => 1

/-- All-ones vector. -/
def vOnes : Nat → ℚ := fun _ => 1

/-- All-zeros vector. -/
def vZeros : Nat → ℚ := fun _ => 0

/-- Concrete multi-head-attention weights for the witnesses. -/
def mhaW1 : MHAWeights := ⟨wOnes, wOnes, wOnes, wOnes, vOnes, vZeros⟩

/-- Concrete feed-forward weights for the witnesses. -/
def ffnW1 : FFNWeights := ⟨wOnes, vZeros, wOnes, vZeros, vOnes, vZeros⟩

/-- Keep-everything dropout mask (rank 3). -/
def keepAll3 : Keep3 := fun _ _ _ => true

/-- Keep-everything dropout mask (rank 4). -/
def keepAll4 : Keep4 := fun _ _ _ _ => true

/-- Keep-everything per-layer randomness for an encoder layer. -/
def layerRand1 : LayerRand := ⟨keepAll4, keepAll3, keepAll3⟩

/-- Keep-everything per-layer randomness for a decoder layer. -/
def decLayerRand1 : DecLayerRand := ⟨keepAll4, keepAll3, keepAll4, keepAll3, keepAll3⟩

/-- Constant rank-3 tensor. -/
def t3c (b s f : Nat) (c : ℚ) : Tensor3 := ⟨b, s, f, fun _ _ _ => c⟩

/-- Constant rank-4 tensor. -/
def t4c (a b c d : Nat) (x : ℚ) : Tensor4 := ⟨a, b, c, d, fun _ _ _ _ => x⟩

/-- A concrete one-head one-feature `MultiHeadAttention` with zero dropout. -/
def mha1 : MultiHeadAttention := MultiHeadAttention.init P1 1 1 1 1 0 0 mhaW1

/-- A concrete `ScaledDotProductAttention` with temperature 1, zero dropout. -/
def sdpa1 : ScaledDotProductAttention := ⟨1, ⟨0⟩⟩

/-- A concrete `PositionWiseFeedForward` with width 1 and zero dropout. -/
def ffn1 : PositionWiseFeedForward := PositionWiseFeedForward.init 1 1 0 ffnW1

/-- A concrete `PositionalEncoding` with `d_hid = 2`, `n_position = 2`. -/
def pe1 : PositionalEncoding := PositionalEncoding.init P1 2 2

/-- Concrete encoder weights. -/
def encW1 : EncoderWeights := ⟨wOnes, vZeros, fun _ => (mhaW1, ffnW1)⟩

/-- Concrete decoder weights. -/
def decW1 : DecoderWeights := ⟨wOnes, vZeros, fun _ => (mhaW1, mhaW1, ffnW1)⟩

/-- A concrete one-layer `Encoder` on scalar features with zero dropout. -/
def enc1 : Encoder := Encoder.init P1 1 1 1 1 1 1 1 1 0 0 encW1

/-- A concrete one-layer `Decoder` on scalar features with zero dropout. -/
def dec1 : Decoder := Decoder.init P1 1 1 1 1 1 1 1 1 0 0 decW1

/-- A concrete `DecoderLayer` with zero dropout. -/
def decLayer1 : DecoderLayer := DecoderLayer.init P1 1 1 1 1 1 0 0 mhaW1 mhaW1 ffnW1

/-- Query tensor of shape `[1, 2, 1]` for the cross-attention shape analysis. -/
def qSwap : Tensor3 := t3c 1 2 1 1

/-- Key/value tensor of shape `[2, 1, 1]`: same element count as `qSwap` but
different batch size and step count. -/
def kSwap : Tensor3 := t3c 2 1 1 1

/-- Inversion of a successful `Except` bind. -/
theorem bindOk {ε α β : Type} {x : Except ε α} {f : α → Except ε β} {b : β}
    (h : x >>= f = .ok b) : ∃ a, x = .ok a ∧ f a = .ok b := by
  cases x with
  | error e => simp [Bind.bind, Except.bind] at h
  | ok a => exact ⟨a, rfl, by simpa [Bind.bind, Except.bind] using h⟩

/-- Inversion of a successful `Except` pure. -/
theorem pureOk {ε α : Type} {a b : α} (h : (pure a : Except ε α) = .ok b) : a = b :=
  Except.ok.inj h

/-- Extract the payload of an `Except` that tests successful. -/
theorem okOfIsOkE {ε α : Type} {x : Except ε α} (h : isOkE x = true) : ∃ a, x = .ok a := by
  cases x with
  | error e => simp [isOkE] at h
  | ok a => exact ⟨a, rfl⟩

/-- Inversion of a successful checked linear application. -/
theorem linearApplyOk {l : Linear} {x y : Tensor3} (h : l.apply x = .ok y) :
    x.f = l.inF ∧ y = linApp l x := by
  by_cases hc : x.f = l.inF
  · refine ⟨hc, ?_⟩
    rw [Linear.apply, if_pos hc] at h
    exact (Except.ok.inj h).symm
  · rw [Linear.apply, if_neg hc] at h
    exact absurd h (by simp)

/-- Inversion of a successful checked view. -/
theorem view3to4Ok {x : Tensor3} {a b c d : Nat} {y : Tensor4}
    (h : view3to4 x a b c d = .ok y) :
    x.b * x.s * x.f = a * b * c * d ∧ y = reshape3to4t x a b c d := by
  by_cases hc : x.b * x.s * x.f = a * b * c * d
  · refine ⟨hc, ?_⟩
    rw [view3to4, if_pos hc] at h
    exact (Except.ok.inj h).symm
  · rw [view3to4, if_neg hc] at h
    exact absurd h (by simp)

/-- Inversion of a successful checked rank-4 matmul. -/
theorem matmul4Ok {x y : Tensor4} {z : Tensor4} (h : matmul4 x y = .ok z) :
    (x.d1 = y.d1 ∧ x.d2 = y.d2 ∧ x.d4 = y.d3) ∧ z = matmul4t x y := by
  by_cases hc : x.d1 = y.d1 ∧ x.d2 = y.d2 ∧ x.d4 = y.d3
  · refine ⟨hc, ?_⟩
    rw [matmul4, if_pos hc] at h
    exact (Except.ok.inj h).symm
  · rw [matmul4, if_neg hc] at h
    exact absurd h (by simp)

/-- Inversion of a successful checked in-place addition. -/
theorem add3Ok {x y z : Tensor3} (h : add3 x y = .ok z) :
    (x.b = y.b ∧ x.s = y.s ∧ x.f = y.f) ∧ z = add3t x y := by
  by_cases hc : x.b = y.b ∧ x.s = y.s ∧ x.f = y.f
  · refine ⟨hc, ?_⟩
    rw [add3, if_pos hc] at h
    exact (Except.ok.inj h).symm
  · rw [add3, if_neg hc] at h
    exact absurd h (by simp)

/-- Inversion of a successful (optional) attention-mask application. -/
theorem applyAttnMaskOk {x y : Tensor4} {mask : Option Tensor4} {c : ℚ}
    (h : applyAttnMask x mask c = .ok y) : y = applyAttnMaskT x mask c := by
  cases mask with
  | none => exact (Except.ok.inj h).symm
  | some m =>
    by_cases hc : (m.d1 = x.d1 ∨ m.d1 = 1) ∧ (m.d2 = x.d2 ∨ m.d2 = 1) ∧
        (m.d3 = x.d3 ∨ m.d3 = 1) ∧ (m.d4 = x.d4 ∨ m.d4 = 1)
    · rw [applyAttnMask, maskedFill, if_pos hc] at h
      exact (Except.ok.inj h).symm
    · rw [applyAttnMask, maskedFill, if_neg hc] at h
      exact absurd h (by simp)

/-- Inversion of a successful checked positional-encoding forward. -/
theorem posEncForwardOk {pe : PositionalEncoding} {x y : Tensor3}
    (h : pe.forward x = .ok y) :
    (x.s ≤ pe.n_position ∧ x.f = pe.d_hid) ∧
    y = ⟨x.b, x.s, x.f, fun i t j => x.data i t j + pe.pos_table.data 0 t j⟩ := by
  by_cases hc : x.s ≤ pe.n_position ∧ x.f = pe.d_hid
  · refine ⟨hc, ?_⟩
    rw [PositionalEncoding.forward, if_pos hc] at h
    exact (Except.ok.inj h).symm
  · rw [PositionalEncoding.forward, if_neg hc] at h
    exact absurd h (by simp)

/-- Inversion of a successful `ScaledDotProductAttention.forward`. -/
theorem sdpaForwardOk {P : NumPrims} {s : ScaledDotProductAttention} {q k v : Tensor4}
    {mask : Option Tensor4} {keep : Keep4} {o w : Tensor4}
    (h : s.forward P q k v mask keep = .ok (o, w)) :
    w = s.dropout.apply4 keep (softmax4 P (applyAttnMaskT
        (matmul4t (div4 q s.temperature) (transpose23 k)) mask (-(10 ^ 9)))) ∧
    o = matmul4t w v := by
  simp only [ScaledDotProductAttention.forward] at h
  obtain ⟨a0, h0, h⟩ := bindOk h
  obtain ⟨a1, h1, h⟩ := bindOk h
  obtain ⟨a2, h2, h⟩ := bindOk h
  obtain ⟨ho, hw⟩ := Prod.mk.injEq .. ▸ pureOk h
  obtain ⟨hc0, he0⟩ := matmul4Ok h0
  have he1 := applyAttnMaskOk h1
  obtain ⟨hc2, he2⟩ := matmul4Ok h2
  subst he0 he1
  constructor
  · exact hw.symm
  · rw [← ho, he2, hw]

/-- Inversion of a successful `MultiHeadAttention.forward`: the shape checks
that must have passed, the delegated attention call on the projected and
transposed views, and the returned hidden state as
layer-norm(dropout(fc(merged heads)) + original q). -/
theorem mhaForwardOk {P : NumPrims} {m : MultiHeadAttention} {q k v : Tensor3}
    {mask : Option Tensor3} {keepA : Keep4} {keep3 : Keep3} {out : Tensor3} {w : Tensor4}
    (h : m.forward P q k v mask keepA keep3 = .ok (out, w)) :
    q.f = m.w_qs.inF ∧ k.f = m.w_ks.inF ∧ v.f = m.w_vs.inF ∧
    q.b * q.s * m.w_qs.outF = q.b * q.s * m.n_head * m.d_k ∧
    k.b * k.s * m.w_ks.outF = q.b * q.s * m.n_head * m.d_k ∧
    v.b * v.s * m.w_vs.outF = q.b * q.s * m.n_head * m.d_v ∧
    ∃ attnOut : Tensor4,
      m.attention.forward P
        (transpose12 (reshape3to4t (linApp m.w_qs q) q.b q.s m.n_head m.d_k))
        (transpose12 (reshape3to4t (linApp m.w_ks k) q.b q.s m.n_head m.d_k))
        (transpose12 (reshape3to4t (linApp m.w_vs v) q.b q.s m.n_head m.d_v))
        (mask.map unsqueeze1) keepA = .ok (attnOut, w) ∧
      out = m.layer_norm.apply P
        (add3t (m.dropout.apply3 keep3 (linApp m.fc (mergeHeads (transpose12 attnOut)))) q) := by
  simp only [MultiHeadAttention.forward] at h
  obtain ⟨qp, hqp, h⟩ := bindOk h
  obtain ⟨q4, hq4, h⟩ := bindOk h
  obtain ⟨kp, hkp, h⟩ := bindOk h
  obtain ⟨k4, hk4, h⟩ := bindOk h
  obtain ⟨vp, hvp, h⟩ := bindOk h
  obtain ⟨v4, hv4, h⟩ := bindOk h
  obtain ⟨avw, hat, h⟩ := bindOk h
  obtain ⟨vo, wts⟩ := avw
  obtain ⟨vfc, hfc, h⟩ := bindOk h
  obtain ⟨vres, hres, h⟩ := bindOk h
  obtain ⟨hout, hw⟩ := Prod.mk.injEq .. ▸ pureOk h
  obtain ⟨hqf, heqp⟩ := linearApplyOk hqp
  subst heqp
  obtain ⟨hqv, heq4⟩ := view3to4Ok hq4
  subst heq4
  obtain ⟨hkf, hekp⟩ := linearApplyOk hkp
  subst hekp
  obtain ⟨hkv, hek4⟩ := view3to4Ok hk4
  subst hek4
  obtain ⟨hvf, hevp⟩ := linearApplyOk hvp
  subst hevp
  obtain ⟨hvv, hev4⟩ := view3to4Ok hv4
  subst hev4
  obtain ⟨hfcf, hefc⟩ := linearApplyOk hfc
  subst hefc
  obtain ⟨hresc, heres⟩ := add3Ok hres
  subst heres
  refine ⟨hqf, hkf, hvf, ?_, ?_, ?_, vo, ?_, ?_⟩
  · simpa [linApp] using hqv
  · simpa [linApp] using hkv
  · simpa [linApp] using hvv
  · rw [← hw]
    exact hat
  · rw [← hout]

/-- Inversion of a successful `PositionWiseFeedForward.forward`. -/
theorem pwffForwardOk {P : NumPrims} {f : PositionWiseFeedForward} {x : Tensor3}
    {keep : Keep3} {y : Tensor3} (h : f.forward P x keep = .ok y) :
    x.f = f.linear_1.inF ∧
    y = f.layer_norm.apply P
      (add3t (f.dropout.apply3 keep (linApp f.linear_2 (relu3 (linApp f.linear_1 x)))) x) := by
  simp only [PositionWiseFeedForward.forward] at h
  obtain ⟨h1, hl1, h⟩ := bindOk h
  obtain ⟨h3, hl2, h⟩ := bindOk h
  obtain ⟨h5, hadd, h⟩ := bindOk h
  obtain ⟨hxf, he1⟩ := linearApplyOk hl1
  subst he1
  obtain ⟨hf2, he2⟩ := linearApplyOk hl2
  subst he2
  obtain ⟨hac, hea⟩ := add3Ok hadd
  subst hea
  exact ⟨hxf, (pureOk h).symm⟩

/-- On success, the encoder layer loop returns one attention-weight tensor
per layer, in order. -/
theorem encoderLayerLoopLength {P : NumPrims} :
    ∀ (layers : List EncoderLayer) (x : Tensor3) (src_mask : Option Tensor3)
      (rs : Nat → LayerRand) (i : Nat) (t : Tensor3) (ws : List Tensor4),
      encoderLayerLoop P layers x src_mask rs i = .ok (t, ws) →
      ws.length = layers.length := by
  intro layers
  induction layers with
  | nil =>
    intro x src_mask rs i t ws h
    simp only [encoderLayerLoop] at h
    obtain ⟨ht, hws⟩ := Prod.mk.injEq .. ▸ Except.ok.inj h
    simp [← hws]
  | cons layer rest ih =>
    intro x src_mask rs i t ws h
    simp only [encoderLayerLoop] at h
    obtain ⟨yw, hy, h⟩ := bindOk h
    obtain ⟨y, w1⟩ := yw
    obtain ⟨ow, hrec, h⟩ := bindOk h
    obtain ⟨o, wsr⟩ := ow
    obtain ⟨ht, hws⟩ := Prod.mk.injEq .. ▸ pureOk h
    have := ih y src_mask rs (i + 1) o wsr hrec
    simp [← hws, this]

/-- C3: For every q, k, v of shape `[batch, heads, steps, dim]` and optional
mask, `ScaledDotProductAttention.forward` computes the similarity as
`(q / temperature)` matmul k-transposed over the last two axes, overwrites
entries where mask == 1 with the large negative constant `-1e9` strictly
before the softmax over the last axis, applies dropout to the softmax result,
and returns `(weights matmul v, post-dropout weights)`; and the temperature
a `MultiHeadAttention` constructs its attention with is `sqrt(d_k)`. -/
theorem sdpa_forward_masks_before_softmax {P : NumPrims}
    {s : ScaledDotProductAttention} {q k v : Tensor4} {mask : Option Tensor4}
    {keep : Keep4} {o w : Tensor4}
    (h : s.forward P q k v mask keep = .ok (o, w)) :
    (w = s.dropout.apply4 keep (softmax4 P (applyAttnMaskT
        (matmul4t (div4 q s.temperature) (transpose23 k)) mask (-(10 ^ 9)))) ∧
      o = matmul4t w v) ∧
    ∀ (n_heads d_model d_k d_v : Nat) (dr adr : ℚ) (W : MHAWeights),
      (MultiHeadAttention.init P n_heads d_model d_k d_v dr adr W).attention.temperature
        = P.sqrtQ (d_k : ℚ) := by
  refine ⟨sdpaForwardOk h, ?_⟩
  intro n_heads d_model d_k d_v dr adr W
  rfl

/-- Witness for C3: a concrete successful call of
`ScaledDotProductAttention.forward`, on which the theorem's conclusions hold. -/
theorem sdpa_forward_masks_before_softmax_witness :
    ∃ ow : Tensor4 × Tensor4,
      ScaledDotProductAttention.forward P1 sdpa1 (t4c 1 1 1 1 1) (t4c 1 1 1 1 1)
        (t4c 1 1 1 1 1) (some (t4c 1 1 1 1 0)) keepAll4 = .ok ow ∧
      ow.2 = sdpa1.dropout.apply4 keepAll4 (softmax4 P1 (applyAttnMaskT
        (matmul4t (div4 (t4c 1 1 1 1 1) sdpa1.temperature) (transpose23 (t4c 1 1 1 1 1)))
        (some (t4c 1 1 1 1 0)) (-(10 ^ 9)))) ∧
      ow.1 = matmul4t ow.2 (t4c 1 1 1 1 1) := by
  obtain ⟨ow, how⟩ := okOfIsOkE (x := ScaledDotProductAttention.forward P1 sdpa1
    (t4c 1 1 1 1 1) (t4c 1 1 1 1 1) (t4c 1 1 1 1 1) (some (t4c 1 1 1 1 0)) keepAll4)
    (by decide)
  obtain ⟨o, w⟩ := ow
  obtain ⟨⟨hw, ho⟩, _⟩ := sdpa_forward_masks_before_softmax how
  exact ⟨(o, w), how, hw, ho⟩

/-- C4: For every `MultiHeadAttention` forward call, the returned hidden
state equals `LayerNorm(dropout(output_projection(merged_heads)) + q)`, where
the residual term is the original `q` argument captured before any linear
projection (`merged_heads` being the head-merged output of the delegated
attention call on the projected views), and the layer normalisation of the
constructed module is over the last axis with epsilon 1e-6. -/
theorem mha_forward_residual_layernorm {P : NumPrims} {n_heads d_model d_k d_v : Nat}
    {dr adr : ℚ} {W : MHAWeights} {q k v : Tensor3} {mask : Option Tensor3}
    {keepA : Keep4} {keep3 : Keep3} {out : Tensor3} {w : Tensor4}
    (h : (MultiHeadAttention.init P n_heads d_model d_k d_v dr adr W).forward
        P q k v mask keepA keep3 = .ok (out, w)) :
    (MultiHeadAttention.init P n_heads d_model d_k d_v dr adr W).layer_norm.eps
        = 1 / 1000000 ∧
    ∃ attnOut : Tensor4,
      (MultiHeadAttention.init P n_heads d_model d_k d_v dr adr W).attention.forward P
        (transpose12 (reshape3to4t
          (linApp (MultiHeadAttention.init P n_heads d_model d_k d_v dr adr W).w_qs q)
          q.b q.s n_heads d_k))
        (transpose12 (reshape3to4t
          (linApp (MultiHeadAttention.init P n_heads d_model d_k d_v dr adr W).w_ks k)
          q.b q.s n_heads d_k))
        (transpose12 (reshape3to4t
          (linApp (MultiHeadAttention.init P n_heads d_model d_k d_v dr adr W).w_vs v)
          q.b q.s n_heads d_v))
        (mask.map unsqueeze1) keepA = .ok (attnOut, w) ∧
      out = (MultiHeadAttention.init P n_heads d_model d_k d_v dr adr W).layer_norm.apply P
        (add3t ((MultiHeadAttention.init P n_heads d_model d_k d_v dr adr W).dropout.apply3
          keep3 (linApp (MultiHeadAttention.init P n_heads d_model d_k d_v dr adr W).fc
            (mergeHeads (transpose12 attnOut)))) q) := by
  obtain ⟨_, _, _, _, _, _, attnOut, hat, hout⟩ := mhaForwardOk h
  exact ⟨rfl, attnOut, hat, hout⟩

/-- Witness for C4: a concrete successful `MultiHeadAttention.forward` call,
on which the theorem's conclusions hold. -/
theorem mha_forward_residual_layernorm_witness :
    ∃ ow : Tensor3 × Tensor4,
      mha1.forward P1 (t3c 1 2 1 1) (t3c 1 2 1 1) (t3c 1 2 1 1) none keepAll4 keepAll3
        = .ok ow ∧
      mha1.layer_norm.eps = 1 / 1000000 ∧
      ∃ attnOut : Tensor4,
        ow.1 = mha1.layer_norm.apply P1
          (add3t (mha1.dropout.apply3 keepAll3
            (linApp mha1.fc (mergeHeads (transpose12 attnOut)))) (t3c 1 2 1 1)) := by
  obtain ⟨ow, how⟩ := okOfIsOkE (x := mha1.forward P1 (t3c 1 2 1 1) (t3c 1 2 1 1)
    (t3c 1 2 1 1) none keepAll4 keepAll3) (by decide)
  obtain ⟨o, w⟩ := ow
  obtain ⟨heps, attnOut, _, hout⟩ := mha_forward_residual_layernorm how
  exact ⟨(o, w), how, heps, attnOut, hout⟩

/-- Dropout preserves the batch dimension. -/
theorem dropout3_b (d : Dropout) (keep : Keep3) (x : Tensor3) :
    (d.apply3 keep x).b = x.b := by
  unfold Dropout.apply3
  split <;> rfl

/-- Dropout preserves the step dimension. -/
theorem dropout3_s (d : Dropout) (keep : Keep3) (x : Tensor3) :
    (d.apply3 keep x).s = x.s := by
  unfold Dropout.apply3
  split <;> rfl

/-- Dropout preserves the feature dimension. -/
theorem dropout3_f (d : Dropout) (keep : Keep3) (x : Tensor3) :
    (d.apply3 keep x).f = x.f := by
  unfold Dropout.apply3
  split <;> rfl

/-- C8: For every input `x`, `PositionWiseFeedForward.forward` returns
`LayerNorm(dropout(linear_2(relu(linear_1(x)))) + x)`, where the residual
term is the original input `x`, the constructed layer norm uses epsilon 1e-6,
and the output shape equals the input shape. -/
theorem pwff_forward_spec {P : NumPrims} {d_in d_hid : Nat} {dr : ℚ} {W : FFNWeights}
    {x : Tensor3} {keep : Keep3} {y : Tensor3}
    (h : (PositionWiseFeedForward.init d_in d_hid dr W).forward P x keep = .ok y) :
    y = (PositionWiseFeedForward.init d_in d_hid dr W).layer_norm.apply P
      (add3t ((PositionWiseFeedForward.init d_in d_hid dr W).dropout.apply3 keep
        (linApp (PositionWiseFeedForward.init d_in d_hid dr W).linear_2
          (relu3 (linApp (PositionWiseFeedForward.init d_in d_hid dr W).linear_1 x)))) x) ∧
    y.b = x.b ∧ y.s = x.s ∧ y.f = x.f ∧
    (PositionWiseFeedForward.init d_in d_hid dr W).layer_norm.eps = 1 / 1000000 := by
  obtain ⟨hxf, hy⟩ := pwffForwardOk h
  subst hy
  refine ⟨rfl, ?_, ?_, ?_, rfl⟩
  · simp [LayerNorm.apply, add3t, dropout3_b, linApp, relu3]
  · simp [LayerNorm.apply, add3t, dropout3_s, linApp, relu3]
  · simp only [LayerNorm.apply, add3t, dropout3_f, linApp, relu3]
    exact hxf.symm

/-- Witness for C8: a concrete successful `PositionWiseFeedForward.forward`
call, on which the theorem's conclusions hold. -/
theorem pwff_forward_spec_witness :
    ∃ y : Tensor3,
      ffn1.forward P1 (t3c 1 1 1 1) keepAll3 = .ok y ∧
      y = ffn1.layer_norm.apply P1
        (add3t (ffn1.dropout.apply3 keepAll3
          (linApp ffn1.linear_2 (relu3 (linApp ffn1.linear_1 (t3c 1 1 1 1)))))
          (t3c 1 1 1 1)) ∧
      y.b = 1 ∧ y.s = 1 ∧ y.f = 1 := by
  obtain ⟨y, hy⟩ := okOfIsOkE (x := ffn1.forward P1 (t3c 1 1 1 1) keepAll3) (by decide)
  obtain ⟨he, hb, hs, hf, _⟩ := pwff_forward_spec hy
  exact ⟨y, hy, he, hb, hs, hf⟩

/-- C5: when the dropout probability is 0 and no query row has every key
position masked, every row (fixed batch, head, query index) of the
attention-weight tensor returned by `ScaledDotProductAttention.forward` sums
to exactly 1 (the rational model makes the floating tolerance exact), for
any backend exponential that is positive everywhere. -/
theorem sdpa_attn_rows_sum_one {P : NumPrims} (hexp : ∀ x : ℚ, 0 < P.expQ x)
    {s : ScaledDotProductAttention} (hp : s.dropout.p = 0)
    {q k v : Tensor4} {mask : Option Tensor4} {keep : Keep4} {o w : Tensor4}
    (h : s.forward P q k v mask keep = .ok (o, w))
    (hrow : ∀ i hh r : Nat, ∃ c, c < k.d3 ∧
      ∀ m : Tensor4, mask = some m →
        m.data (bIdx m.d1 i) (bIdx m.d2 hh) (bIdx m.d3 r) (bIdx m.d4 c) ≠ 1) :
    ∀ i hh r : Nat, ∑ c ∈ Finset.range w.d4, w.data i hh r c = 1 := by
  obtain ⟨hw, _⟩ := sdpaForwardOk h
  simp only [Dropout.apply4, hp, if_pos] at hw
  subst hw
  intro i hh r
  obtain ⟨c0, hc0, _⟩ := hrow i hh r
  have hd4 : 0 <
      (applyAttnMaskT (matmul4t (div4 q s.temperature) (transpose23 k)) mask
        (-(10 ^ 9))).d4 := by
    cases mask with
    | none =>
      simpa [applyAttnMaskT, matmul4t, transpose23] using
        lt_of_le_of_lt (Nat.zero_le c0) hc0
    | some m =>
      simpa [applyAttnMaskT, maskedFillT, matmul4t, transpose23] using
        lt_of_le_of_lt (Nat.zero_le c0) hc0
  have hS : 0 < ∑ j ∈ Finset.range
      (applyAttnMaskT (matmul4t (div4 q s.temperature) (transpose23 k)) mask
        (-(10 ^ 9))).d4,
      P.expQ ((applyAttnMaskT (matmul4t (div4 q s.temperature) (transpose23 k)) mask
        (-(10 ^ 9))).data i hh r j) :=
    Finset.sum_pos (fun j _ => hexp _)
      (Finset.nonempty_range_iff.mpr (Nat.pos_iff_ne_zero.mp hd4))
  simp only [softmax4]
  rw [← Finset.sum_div]
  exact div_self (ne_of_gt hS)

/-- Witness for C5: a concrete successful call with two key positions, zero
dropout, a mask suppressing no full row, whose attention rows sum to 1. -/
theorem sdpa_attn_rows_sum_one_witness :
    ∃ ow : Tensor4 × Tensor4,
      ScaledDotProductAttention.forward P1 sdpa1 (t4c 1 1 2 1 1) (t4c 1 1 2 1 1)
        (t4c 1 1 2 1 1) none keepAll4 = .ok ow ∧
      ∑ c ∈ Finset.range ow.2.d4, ow.2.data 0 0 0 c = 1 := by
  obtain ⟨ow, how⟩ := okOfIsOkE (x := ScaledDotProductAttention.forward P1 sdpa1
    (t4c 1 1 2 1 1) (t4c 1 1 2 1 1) (t4c 1 1 2 1 1) none keepAll4) (by decide)
  obtain ⟨o, w⟩ := ow
  have hsum := sdpa_attn_rows_sum_one (P := P1) (fun _ => one_pos) rfl how
    (fun i hh r => ⟨0, by decide, fun m hm => by cases hm⟩) 0 0 0
  exact ⟨(o, w), how, hsum⟩

/-- C6: the table built by `PositionalEncoding.__init__(d, n)` has shape
`[1, n, d]`; its entry at position `pos` and feature index `i` is
`sin(pos / 10000^(2*(i/2)/d))` for even `i` and `cos` of the same angle for
odd `i`; and `forward` on any `x` with `x.s ≤ n` (and matching feature width)
succeeds and returns `x` plus the first `x.s` rows of the table.  The table
is a structure field built once from `(d, n)` and read-only thereafter (the
source registers it as a buffer and adds `.clone().detach()`, so it is
constant and outside the gradient). -/
theorem positional_encoding_spec {P : NumPrims} {d n : Nat} :
    (PositionalEncoding.init P d n).pos_table.b = 1 ∧
    (PositionalEncoding.init P d n).pos_table.s = n ∧
    (PositionalEncoding.init P d n).pos_table.f = d ∧
    (∀ pos i : Nat,
      (PositionalEncoding.init P d n).pos_table.data 0 pos i =
        if i % 2 = 0 then
          P.sinQ ((pos : ℚ) / P.powQ 10000 (((2 * (i / 2) : Nat) : ℚ) / (d : ℚ)))
        else
          P.cosQ ((pos : ℚ) / P.powQ 10000 (((2 * (i / 2) : Nat) : ℚ) / (d : ℚ)))) ∧
    (∀ x : Tensor3, x.s ≤ n → x.f = d →
      ∃ y : Tensor3, (PositionalEncoding.init P d n).forward x = .ok y ∧
        y.b = x.b ∧ y.s = x.s ∧ y.f = x.f ∧
        ∀ i t j : Nat, y.data i t j =
          x.data i t j + (PositionalEncoding.init P d n).pos_table.data 0 t j) := by
  refine ⟨rfl, rfl, rfl, fun pos i => rfl, fun x hs hf => ?_⟩
  rw [PositionalEncoding.forward, if_pos ⟨hs, hf⟩]
  exact ⟨_, rfl, rfl, rfl, rfl, fun i t j => rfl⟩

/-- Witness for C6: the concrete table with `d_hid = 2`, `n_position = 2`,
evaluated at position 1, feature 0, and a concrete forward call. -/
theorem positional_encoding_spec_witness :
    pe1.pos_table.data 0 1 0 = P1.sinQ ((1 : ℚ) / P1.powQ 10000 0) ∧
    ∃ y : Tensor3, pe1.forward (t3c 1 2 2 0) = .ok y ∧
      y.b = 1 ∧ y.s = 2 ∧ y.f = 2 ∧
      y.data 0 1 0 = 0 + pe1.pos_table.data 0 1 0 := by
  obtain ⟨_, _, _, htab, hfwd⟩ :=
    positional_encoding_spec (P := P1) (d := 2) (n := 2)
  obtain ⟨y, hy, hb, hs, hf, hdata⟩ := hfwd (t3c 1 2 2 0) (by decide) (by decide)
  constructor
  · simpa using htab 1 0
  · exact ⟨y, hy, hb, hs, hf, hdata 0 1 0⟩

/-- Successful bind computes the continuation. -/
theorem okBind {ε α β : Type} (a : α) (f : α → Except ε β) :
    (Except.ok a : Except ε α) >>= f = f a := rfl

/-- C7: for an `Encoder` built with `n_layers` layers, `forward` with
`return_attn_weights = false` returns only the final hidden state, and with
`return_attn_weights = true` returns the same final hidden state together
with an ordered list of one attention-weight tensor per constructed layer
(length `n_layers`, collected in layer-application order by the loop). -/
theorem encoder_forward_return_flag {P : NumPrims}
    {n_layers n_steps n_features d_model d_inner n_heads d_k d_v : Nat}
    {dr adr : ℚ} {W : EncoderWeights} {x : Tensor3} {src_mask : Option Tensor3}
    {keep0 : Keep3} {rs : Nat → LayerRand} :
    (∀ out, Encoder.forward P
        (Encoder.init P n_layers n_steps n_features d_model d_inner n_heads d_k d_v dr adr W)
        x src_mask false keep0 rs = .ok out → ∃ t : Tensor3, out = .inl t) ∧
    (∀ out, Encoder.forward P
        (Encoder.init P n_layers n_steps n_features d_model d_inner n_heads d_k d_v dr adr W)
        x src_mask true keep0 rs = .ok out →
      ∃ (t : Tensor3) (ws : List Tensor4), out = .inr (t, ws) ∧ ws.length = n_layers ∧
        Encoder.forward P
          (Encoder.init P n_layers n_steps n_features d_model d_inner n_heads d_k d_v dr adr W)
          x src_mask false keep0 rs = .ok (.inl t)) := by
  constructor
  · intro out h
    simp only [Encoder.forward, Encoder.stackAttr, if_pos] at h
    obtain ⟨x1, hx1, h⟩ := bindOk h
    obtain ⟨x2, hx2, h⟩ := bindOk h
    obtain ⟨ows, hloop, h⟩ := bindOk h
    obtain ⟨o, ws⟩ := ows
    simp only [Bool.false_eq_true, if_false] at h
    exact ⟨o, (pureOk h).symm⟩
  · intro out h
    simp only [Encoder.forward, Encoder.stackAttr, if_pos] at h
    obtain ⟨x1, hx1, h⟩ := bindOk h
    obtain ⟨x2, hx2, h⟩ := bindOk h
    obtain ⟨ows, hloop, h⟩ := bindOk h
    obtain ⟨o, ws⟩ := ows
    simp only [if_true] at h
    refine ⟨o, ws, (pureOk h).symm, ?_, ?_⟩
    · have := encoderLayerLoopLength _ _ _ _ _ _ _ hloop
      simpa [Encoder.init] using this
    · simp only [Encoder.forward, Encoder.stackAttr, if_pos, hx1, okBind, hx2, hloop,
        Bool.false_eq_true, if_false]
      rfl

/-- Witness for C7: a concrete one-layer encoder call with the flag true,
returning the hidden state plus a one-element attention-weight list, and the
same call with the flag false returning only the hidden state. -/
theorem encoder_forward_return_flag_witness :
    ∃ (out : Tensor3 ⊕ (Tensor3 × List Tensor4)) (t : Tensor3) (ws : List Tensor4),
      Encoder.forward P1 enc1 (t3c 1 1 1 0) none true keepAll3 (fun _ => layerRand1)
        = .ok out ∧
      out = .inr (t, ws) ∧ ws.length = 1 ∧
      Encoder.forward P1 enc1 (t3c 1 1 1 0) none false keepAll3 (fun _ => layerRand1)
        = .ok (.inl t) := by
  obtain ⟨out, hout⟩ := okOfIsOkE (x := Encoder.forward P1 enc1 (t3c 1 1 1 0) none true
    keepAll3 (fun _ => layerRand1)) (by decide)
  obtain ⟨t, ws, hinr, hlen, hfalse⟩ :=
    (encoder_forward_return_flag (P := P1)).2 out hout
  exact ⟨out, t, ws, hout, hinr, hlen, hfalse⟩

/-- C2 (the code contradicts the claim): every `DecoderLayer.forward` call
raises `TypeError`, because its very first statement passes the mask as the
keyword argument `mask=` to `MultiHeadAttention.forward`, whose only mask
parameter is named `attn_mask`; the claimed self-attention → cross-attention
→ feed-forward composition is never computed. -/
theorem decoder_layer_forward_raises_type_error (P : NumPrims) (l : DecoderLayer)
    (σ : Store) (decRef encRef : Nat) (slf_attn_mask dec_enc_attn_mask : Option Tensor3)
    (r : DecLayerRand) :
    (DecoderLayer.forwardStore P l σ decRef encRef slf_attn_mask dec_enc_attn_mask r).2
      = .error .typeError ∧
    (DecoderLayer.forwardStore P l σ decRef encRef slf_attn_mask dec_enc_attn_mask r).1
      = σ := by
  constructor <;>
    simp [DecoderLayer.forwardStore, MultiHeadAttention.callKwStore]

/-- C1 (the code contradicts the claim): `Decoder.__init__` binds the
constructed layer list to the attribute `dec_layer_stack`, but
`Decoder.forward` iterates the attribute `layer_stack`, which is never bound;
the lookup yields nothing, so every `Decoder.forward` call fails (with
`AttributeError` once the embedding and positional-encoding steps succeed)
and the constructed decoder layers are never applied. -/
theorem decoder_forward_never_applies_layers (P : NumPrims) (dec : Decoder)
    (σ : Store) (trgRef encRef : Nat) (trg_mask src_mask : Option Tensor3)
    (flag : Bool) (keep0 : Keep3) (rs : Nat → DecLayerRand) :
    Decoder.stackAttr dec AttrName.layer_stack = none ∧
    Decoder.stackAttr dec AttrName.dec_layer_stack = some dec.dec_layer_stack ∧
    isOkE (Decoder.forwardStore P dec σ trgRef encRef trg_mask src_mask flag keep0 rs).2
      = false := by
  refine ⟨by simp [Decoder.stackAttr], by simp [Decoder.stackAttr], ?_⟩
  unfold Decoder.forwardStore
  cases hemb : dec.embedding.apply (σ.getD trgRef default) with
  | error e => rfl
  | ok emb =>
    dsimp only
    cases hpos : dec.position_enc.forward emb with
    | error e => rfl
    | ok pos => simp [Decoder.stackAttr, isOkE]

/-- C9: a decoder forward call (`DecoderLayer.forward` or `Decoder.forward`)
leaves the contents of the encoder-output tensor unchanged: at store level,
the cell holding `enc_output` reads the same after the call as before.  (Both
calls in fact raise before ever reading `enc_output`; moreover no operation
on the successful paths of this file writes to an argument cell — the only
in-place ops, `v += residual` and `x += residual`, target tensors freshly
created inside their call.) -/
theorem decoder_calls_preserve_enc_output {P : NumPrims} {l : DecoderLayer}
    {dec : Decoder} {σ : Store} {decRef trgRef encRef : Nat}
    {m1 m2 : Option Tensor3} {r : DecLayerRand} {flag : Bool} {keep0 : Keep3}
    {rs : Nat → DecLayerRand} (henc : encRef < σ.length) :
    ((DecoderLayer.forwardStore P l σ decRef encRef m1 m2 r).1)[encRef]?
      = σ[encRef]? ∧
    ((Decoder.forwardStore P dec σ trgRef encRef m1 m2 flag keep0 rs).1)[encRef]?
      = σ[encRef]? := by
  constructor
  · simp [DecoderLayer.forwardStore, MultiHeadAttention.callKwStore]
  · unfold Decoder.forwardStore
    cases hemb : dec.embedding.apply (σ.getD trgRef default) with
    | error e => rfl
    | ok emb =>
      dsimp only
      cases hpos : dec.position_enc.forward emb with
      | error e => exact List.getElem?_append_left henc
      | ok pos =>
        simp only [Decoder.stackAttr, reduceCtorEq, if_neg, ite_false]
        exact List.getElem?_append_left henc

/-- Witness for C9: a concrete store holding one tensor, whose cell 0 (the
encoder output) is unchanged by both decoder calls. -/
theorem decoder_calls_preserve_enc_output_witness :
    ((DecoderLayer.forwardStore P1 decLayer1 [t3c 1 1 1 0] 0 0 none none
        decLayerRand1).1)[0]? = [t3c 1 1 1 0][0]? ∧
    ((Decoder.forwardStore P1 dec1 [t3c 1 1 1 0] 0 0 none none false keepAll3
        (fun _ => decLayerRand1)).1)[0]? = [t3c 1 1 1 0][0]? :=
  decoder_calls_preserve_enc_output (by decide)

/-- C10 (amended): `MultiHeadAttention.forward` reshapes the projected k and
v with `view(batch_size, n_steps, ...)` where the batch size and step count
are taken from `q`, and `view` checks only the total element count; hence a
successful call requires `k.b * k.s = q.b * q.s` and `v.b * v.s = q.b * q.s`,
and in particular with equal (positive) batch sizes a key/value step count
different from the query's is an error — but equality of batch size and step
count separately is not required. -/
theorem mha_forward_kv_numel {P : NumPrims} {nh dm dk dv : Nat} {dr adr : ℚ}
    {W : MHAWeights} {q k v : Tensor3} {mask : Option Tensor3} {keepA : Keep4}
    {keep3 : Keep3} {r : Tensor3 × Tensor4}
    (hnh : 0 < nh) (hdk : 0 < dk) (hdv : 0 < dv)
    (h : (MultiHeadAttention.init P nh dm dk dv dr adr W).forward P q k v mask
      keepA keep3 = .ok r) :
    k.b * k.s = q.b * q.s ∧ v.b * v.s = q.b * q.s ∧
    (k.b = q.b → 0 < q.b → k.s = q.s) ∧ (v.b = q.b → 0 < q.b → v.s = q.s) := by
  obtain ⟨out, w⟩ := r
  obtain ⟨_, _, _, _, hkv, hvv, _⟩ := mhaForwardOk h
  have hkk : k.b * k.s * (nh * dk) = q.b * q.s * (nh * dk) := by
    simpa [MultiHeadAttention.init, Nat.mul_assoc] using hkv
  have hvv2 : v.b * v.s * (nh * dv) = q.b * q.s * (nh * dv) := by
    simpa [MultiHeadAttention.init, Nat.mul_assoc] using hvv
  have hk : k.b * k.s = q.b * q.s :=
    Nat.eq_of_mul_eq_mul_right (Nat.mul_pos hnh hdk) hkk
  have hv : v.b * v.s = q.b * q.s :=
    Nat.eq_of_mul_eq_mul_right (Nat.mul_pos hnh hdv) hvv2
  refine ⟨hk, hv, fun hb hq => ?_, fun hb hq => ?_⟩
  · apply Nat.eq_of_mul_eq_mul_left hq
    rw [hb] at hk
    exact hk
  · apply Nat.eq_of_mul_eq_mul_left hq
    rw [hb] at hv
    exact hv

/-- Counterexample to C10 as stated: a `MultiHeadAttention.forward` call
succeeds on `q` of shape `[1, 2, 1]` with k = v of shape `[2, 1, 1]` — the
element counts agree, so the `view` reshape passes even though the batch size
and the step count of k and v both differ from q's. -/
theorem mha_forward_kv_shape_counterexample :
    ∃ r : Tensor3 × Tensor4,
      mha1.forward P1 qSwap kSwap kSwap none keepAll4 keepAll3 = .ok r ∧
      kSwap.b ≠ qSwap.b ∧ kSwap.s ≠ qSwap.s := by
  obtain ⟨r, hr⟩ := okOfIsOkE
    (x := mha1.forward P1 qSwap kSwap kSwap none keepAll4 keepAll3) (by decide)
  exact ⟨r, hr, by decide, by decide⟩

/-- Witness for the amended C10: the same concrete successful call, on which
the element-count products agree. -/
theorem mha_forward_kv_numel_witness :
    ∃ r : Tensor3 × Tensor4,
      mha1.forward P1 qSwap kSwap kSwap none keepAll4 keepAll3 = .ok r ∧
      kSwap.b * kSwap.s = qSwap.b * qSwap.s := by
  obtain ⟨r, hr⟩ := okOfIsOkE
    (x := mha1.forward P1 qSwap kSwap kSwap none keepAll4 keepAll3) (by decide)
  obtain ⟨hk, _, _, _⟩ :=
    mha_forward_kv_numel (by decide) (by decide) (by decide) hr
  exact ⟨r, hr, hk⟩
